import Mathlib

/-!
Shallow embedding of the mediatpy mediator library (src/src/mediatpy/__init__.py).

Python classes and runtime values are modelled as follows.

* A runtime type (`type(x)` in Python) is a `Nat` identifier.  The Python
  `issubclass` relation is an explicit parameter `H : Nat → Nat → Bool`
  of every operation that consults it (in Python it is global); `H t k`
  models `issubclass(t, k)`.
* A `Request` / `Notification` instance is a pair of an object identity
  (`instId`, modelling `id(x)` — the identity on which `functools.cache`
  keys, since `Request` and `Notification` define no custom eq or hash)
  and the exact runtime type `ty`.
* A handler / behavior class is a declaration record carrying its class
  identifier, the introspection data `typeArgs`
  (`get_args(cls.__orig_bases__[0])` as a list of type identifiers), and a
  description of what its `handle` coroutine does when executed.
  A `PipelineBehavior`'s `handle` is modelled by the number of times it
  awaits its continuation (`calls`) and a function `ret` computing its
  result from the list of continuation results (execution is
  deterministic, so repeated continuation calls all yield the same value).
  A `NotificationHandler`'s `handle` either returns or raises an
  exception, modelled by `outcome : Except Nat Unit` (`Nat` is an opaque
  exception payload).
* Observable effects (factory instantiations and `handle` executions) are
  recorded as a trace of `Event`s, in execution order.
-/

namespace Mediatpy

instance {ε α : Type} [DecidableEq ε] [DecidableEq α] : DecidableEq (Except ε α) := fun x y =>
  match x, y with
  | Except.ok a, Except.ok b =>
    if h : a = b then isTrue (by rw [h])
    else isFalse (by intro he; injection he; contradiction)
  | Except.error a, Except.error b =>
    if h : a = b then isTrue (by rw [h])
    else isFalse (by intro he; injection he; contradiction)
  | Except.ok _, Except.error _ => isFalse (fun he => Except.noConfusion he)
  | Except.error _, Except.ok _ => isFalse (fun he => Except.noConfusion he)

/-- A `Request` instance: object identity plus exact runtime type. -/
structure RequestInst where
  instId : Nat
  ty : Nat
  deriving DecidableEq, Repr

/-- A `Notification` instance: object identity plus exact runtime type. -/
structure NotificationInst where
  instId : Nat
  ty : Nat
  deriving DecidableEq, Repr

/-- Observable events during a dispatch: factory instantiations and
`handle` executions.  Pipeline-behavior events carry the class identifier
the factory receives together with the global registration position of
the chain stage being instantiated / executed. -/
inductive Event where
  | createRequestHandler (classId : Nat)
  | execRequestHandler (classId : Nat)
  | createPipelineBehavior (classId : Nat) (position : Nat)
  | execPipelineBehavior (classId : Nat) (position : Nat)
  | createNotificationHandler (classId : Nat)
  | execNotificationHandler (classId : Nat)
  deriving DecidableEq, Repr

/-- A `RequestHandler` subclass: `handle` returns `handle r` on request
`r`.  `typeArgs` models `get_args(cls.__orig_bases__[0])`; its head is
the declared request type. -/
structure RequestHandlerDecl (R : Type) where
  classId : Nat
  typeArgs : List Nat
  handle : RequestInst → R

/-- A `PipelineBehavior` subclass: its `handle` awaits the continuation
`calls` times and returns `ret` of the collected results
(short-circuit = `calls = 0`). -/
structure PipelineBehaviorDecl (R : Type) where
  classId : Nat
  typeArgs : List Nat
  calls : Nat
  ret : List R → R

/-- A `NotificationHandler` subclass: its `handle` either completes
(`Except.ok`) or raises an exception with payload `e` (`Except.error e`). -/
structure NotificationHandlerDecl where
  classId : Nat
  typeArgs : List Nat
  outcome : Except Nat Unit

/-- Mirror of the `_PipelineBehaviorRegistration` dataclass. -/
structure PipelineBehaviorRegistration (R : Type) where
  pipeline_behavior : PipelineBehaviorDecl R
  position : Nat

/-- Python builtin exceptions that the `__orig_bases__` introspection in
`_get_request_type` / `_get_notification_type` can raise:
`IndexError` from `get_args(...)[0]` on an empty argument tuple, and
`AttributeError` from a missing `__orig_bases__` attribute.  The library
defines no dedicated signature-error class. -/
inductive IntrospectionError where
  | indexError
  | attributeError
  deriving DecidableEq, Repr

/-- State of a `Mediator` object.  Python `dict`s are insertion-ordered
association lists with unique keys (`dictSet` below preserves this).
The two `_cache`s model the `functools.cache` decorators on
`_resolve_pipeline_behaviors` and `_resolve_notification_handlers`: they
are keyed by the *instance identity* of the dispatched message (the
`Request` / `Notification` argument hashes by object identity), and the
Python caches live on the function, keyed by `(self, request)`; since a
`Mediator` here is an explicit state value, the per-`self` dimension is
the state threading itself. -/
structure Mediator (R : Type) where
  request_handlers : List (Nat × RequestHandlerDecl R) := []
  pipeline_behaviors : List (Nat × List (PipelineBehaviorRegistration R)) := []
  pipeline_behavior_position : Nat := 0
  notification_handlers : List (Nat × List NotificationHandlerDecl) := []
  raise_error_if_not_any_registered_notification_handler : Bool := false
  behavior_cache : List (Nat × List (PipelineBehaviorRegistration R)) := []
  notification_cache : List (Nat × List NotificationHandlerDecl) := []

/-- `d[k]` on an association-list dict. -/
def dictGet (k : Nat) : List (Nat × α) → Option α
  | [] => none
  | (k', v) :: rest => if k' = k then some v else dictGet k rest

/-- `d[k] = v` on an association-list dict: updates the existing entry in
place (Python dicts keep key order on overwrite) or appends a new one. -/
def dictSet (k : Nat) (v : α) : List (Nat × α) → List (Nat × α)
  | [] => [(k, v)]
  | (k', v') :: rest => if k' = k then (k, v) :: rest else (k', v') :: dictSet k v rest

/-- `Mediator._get_request_type`: `get_args(handler.__orig_bases__[0])[0]`.
An empty argument tuple makes the `[0]` subscript raise `IndexError`. -/
def _get_request_type (typeArgs : List Nat) : Except IntrospectionError Nat :=
  match typeArgs with
  | [] => Except.error IntrospectionError.indexError
  | t :: _ => Except.ok t

/-- `Mediator._get_notification_type`: same introspection as
`_get_request_type`, applied to a notification handler class. -/
def _get_notification_type (typeArgs : List Nat) : Except IntrospectionError Nat :=
  match typeArgs with
  | [] => Except.error IntrospectionError.indexError
  | t :: _ => Except.ok t

/-- `Mediator.register_request_handler`: keys the handler by its declared
request type; a plain dict assignment, so a second registration for the
same type overwrites the first. -/
def register_request_handler (m : Mediator R) (h : RequestHandlerDecl R) :
    Except IntrospectionError (Mediator R) := do
  let request ← _get_request_type h.typeArgs
  return { m with request_handlers := dictSet request h m.request_handlers }

/-- `Mediator.register_notification_handler`: appends the handler to the
list kept for its declared notification type. -/
def register_notification_handler (m : Mediator R) (h : NotificationHandlerDecl) :
    Except IntrospectionError (Mediator R) := do
  let nty ← _get_notification_type h.typeArgs
  let hs := (dictGet nty m.notification_handlers).getD []
  return { m with notification_handlers := dictSet nty (hs ++ [h]) m.notification_handlers }

/-- `Mediator.register_pipeline_behavior`: appends a registration record
carrying the current value of the single global position counter to the
list kept for the behavior's declared request type, then increments the
counter. -/
def register_pipeline_behavior (m : Mediator R) (b : PipelineBehaviorDecl R) :
    Except IntrospectionError (Mediator R) := do
  let request ← _get_request_type b.typeArgs
  let bs := (dictGet request m.pipeline_behaviors).getD []
  return { m with
    pipeline_behaviors :=
      dictSet request (bs ++ [⟨b, m.pipeline_behavior_position⟩]) m.pipeline_behaviors
    pipeline_behavior_position := m.pipeline_behavior_position + 1 }

/-- The `matching` / `flattened` comprehensions of
`Mediator._resolve_pipeline_behaviors`: the value lists of every registry
key `K` with `issubclass(type(request), K)`, in dict order, flattened
into one sequence. -/
def matchingBehaviorRegistrations (H : Nat → Nat → Bool) (m : Mediator R) (ty : Nat) :
    List (PipelineBehaviorRegistration R) :=
  ((m.pipeline_behaviors.filter (fun kv => H ty kv.1)).map (fun kv => kv.2)).flatten

/-- Body of `Mediator._resolve_pipeline_behaviors` (without the
`functools.cache` layer): collect the value lists of every registry key
`K` with `issubclass(type(request), K)` in dict order, flatten
(`matchingBehaviorRegistrations`), and sort by ascending global position.
Python's `sorted` is stable; positions of stored registrations are
pairwise distinct (one global counter), so the stable
`List.insertionSort` used here agrees with it. -/
def _resolve_pipeline_behaviors_pure (H : Nat → Nat → Bool) (m : Mediator R) (ty : Nat) :
    List (PipelineBehaviorRegistration R) :=
  List.insertionSort (fun a b => a.position ≤ b.position) (matchingBehaviorRegistrations H m ty)

/-- `Mediator._resolve_pipeline_behaviors` with its `functools.cache`:
the cache key is the request instance (object identity); on a miss the
pure body runs against the current registries and the result is stored. -/
def _resolve_pipeline_behaviors (H : Nat → Nat → Bool) (m : Mediator R) (r : RequestInst) :
    List (PipelineBehaviorRegistration R) × Mediator R :=
  match dictGet r.instId m.behavior_cache with
  | some v => (v, m)
  | none =>
    let v := _resolve_pipeline_behaviors_pure H m r.ty
    (v, { m with behavior_cache := dictSet r.instId v m.behavior_cache })

/-- Body of `Mediator._resolve_notification_handlers` (without the
`functools.cache` layer): flatten the value lists of every matching key
in dict order; no sort. -/
def _resolve_notification_handlers_pure (H : Nat → Nat → Bool) (m : Mediator R) (ty : Nat) :
    List NotificationHandlerDecl :=
  ((m.notification_handlers.filter (fun kv => H ty kv.1)).map (fun kv => kv.2)).flatten

/-- `Mediator._resolve_notification_handlers` with its `functools.cache`,
keyed by notification instance identity. -/
def _resolve_notification_handlers (H : Nat → Nat → Bool) (m : Mediator R) (n : NotificationInst) :
    List NotificationHandlerDecl × Mediator R :=
  match dictGet n.instId m.notification_cache with
  | some v => (v, m)
  | none =>
    let v := _resolve_notification_handlers_pure H m n.ty
    (v, { m with notification_cache := dictSet n.instId v m.notification_cache })

/-- Error raised by `Mediator.send`: `NoRequestHandlerFoundError`, carrying
the offending request instance. -/
inductive SendError where
  | noRequestHandlerFound (request : RequestInst)
  deriving DecidableEq, Repr

/-- Errors surfacing from `Mediator.publish`:
`NotAnyNotificationHandlerFoundError` carrying the notification, or an
exception raised by a notification handler, propagated unmodified
(`handlerError e` is the very payload `e` the handler raised). -/
inductive PublishError where
  | notAnyNotificationHandlerFound (notification : NotificationInst)
  | handlerError (e : Nat)
  deriving DecidableEq, Repr

/-- Outcome of a `send`: the returned value or raised error, the trace of
observable events in execution order, and the mediator state after the
call (the resolution caches may have gained entries). -/
structure SendResult (R : Type) where
  result : Except SendError R
  trace : List Event
  state : Mediator R

/-- Outcome of a `publish`. -/
structure PublishResult (R : Type) where
  result : Except PublishError Unit
  trace : List Event
  state : Mediator R

/-- Execution of the behavior chain over the resolved registration list
`bs`, with the one request-handler instance `h` created by `send` at the
bottom.  `runChain h r []` is the continuation that invokes
`request_handler.handle(request)` (also the zero-behavior direct call in
`send`).  For `reg :: rest`, the stage instantiates `reg`'s behavior
class via the factory (`createPipelineBehavior`), runs its `handle`
(`execPipelineBehavior`), which awaits its continuation
`reg.pipeline_behavior.calls` times — each await lazily re-enters
`runChain h r rest`, so each produces the same trace and value — and
returns `ret` of the collected results. -/
def runChain (h : RequestHandlerDecl R) (r : RequestInst) :
    List (PipelineBehaviorRegistration R) → List Event × R
  | [] => ([Event.execRequestHandler h.classId], h.handle r)
  | reg :: rest =>
    let b := reg.pipeline_behavior
    let sub := runChain h r rest
    (Event.createPipelineBehavior b.classId reg.position ::
       Event.execPipelineBehavior b.classId reg.position ::
       (List.replicate b.calls sub.1).flatten,
     b.ret (List.replicate b.calls sub.2))

/-- `Mediator.send`: look up the handler for the exact runtime type of
the request (no subtype fallback) and raise `NoRequestHandlerFoundError`
if absent; otherwise instantiate the handler (eagerly, before the chain),
resolve the pipeline behaviors through the cache, and run the chain
(empty chain = direct handler call). -/
def send (H : Nat → Nat → Bool) (m : Mediator R) (r : RequestInst) : SendResult R :=
  match dictGet r.ty m.request_handlers with
  | none => ⟨Except.error (SendError.noRequestHandlerFound r), [], m⟩
  | some h =>
    let res := _resolve_pipeline_behaviors H m r
    let run := runChain h r res.1
    ⟨Except.ok run.2, Event.createRequestHandler h.classId :: run.1, res.2⟩

/-- The `for` loop of `Mediator.publish`: each matched handler is
instantiated via the factory and its `handle` awaited, strictly in list
order; a raising handler stops the loop and its exception propagates. -/
def runNotificationHandlers : List NotificationHandlerDecl → List Event × Except Nat Unit
  | [] => ([], Except.ok ())
  | h :: rest =>
    match h.outcome with
    | Except.error e =>
      ([Event.createNotificationHandler h.classId, Event.execNotificationHandler h.classId],
       Except.error e)
    | Except.ok _ =>
      let next := runNotificationHandlers rest
      (Event.createNotificationHandler h.classId ::
         Event.execNotificationHandler h.classId :: next.1,
       next.2)

/-- `Mediator.publish`: resolve the matching notification handlers
through the cache; if none matched and the strict flag is set, raise
`NotAnyNotificationHandlerFoundError`; otherwise run the handler loop. -/
def publish (H : Nat → Nat → Bool) (m : Mediator R) (n : NotificationInst) : PublishResult R :=
  let res := _resolve_notification_handlers H m n
  if res.1.isEmpty ∧ m.raise_error_if_not_any_registered_notification_handler then
    ⟨Except.error (PublishError.notAnyNotificationHandlerFound n), [], res.2⟩
  else
    let run := runNotificationHandlers res.1
    ⟨(match run.2 with
      | Except.ok _ => Except.ok ()
      | Except.error e => Except.error (PublishError.handlerError e)),
     run.1, res.2⟩

/-- Positions recorded by `execPipelineBehavior` events, in trace
order: the order in which the chain stages' `handle` methods started. -/
def execOrder (t : List Event) : List Nat :=
  t.filterMap fun e =>
    match e with
    | Event.execPipelineBehavior _ p => some p
    | _ => none

/-- All behavior registrations stored in the registry, across all keys. -/
def storedBehaviorRegistrations (m : Mediator R) : List (PipelineBehaviorRegistration R) :=
  (m.pipeline_behaviors.map (fun kv => kv.2)).flatten

/-- Invariant maintained by `register_pipeline_behavior` (which stamps
each registration with the value of one strictly increasing global
counter): all stored positions are pairwise distinct and below the
counter. -/
def PositionsOK (m : Mediator R) : Prop :=
  ((storedBehaviorRegistrations m).map (fun reg => reg.position)).Nodup ∧
    ∀ reg ∈ storedBehaviorRegistrations m, reg.position < m.pipeline_behavior_position

instance (m : Mediator R) : Decidable (PositionsOK m) :=
  inferInstanceAs (Decidable (_ ∧ _))

theorem dictGet_dictSet_self (k : Nat) (v : α) (l : List (Nat × α)) :
    dictGet k (dictSet k v l) = some v := by
  induction l with
  | nil => simp [dictGet, dictSet]
  | cons kv rest ih =>
    obtain ⟨k', v'⟩ := kv
    by_cases h : k' = k
    · simp [dictGet, dictSet, h]
    · simp [dictGet, dictSet, h, ih]

theorem dictGet_dictSet_ne (k k' : Nat) (v : α) (l : List (Nat × α)) (h : k' ≠ k) :
    dictGet k' (dictSet k v l) = dictGet k' l := by
  induction l with
  | nil => simp [dictGet, dictSet, h, Ne.symm h]
  | cons kv rest ih =>
    obtain ⟨k'', v''⟩ := kv
    by_cases hk : k'' = k
    · subst hk
      simp [dictGet, dictSet, h, Ne.symm h]
    · simp [dictGet, dictSet, hk, ih]

theorem resolve_behaviors_of_cache_hit (H : Nat → Nat → Bool) (m : Mediator R) (r : RequestInst)
    (v : List (PipelineBehaviorRegistration R))
    (h : dictGet r.instId m.behavior_cache = some v) :
    _resolve_pipeline_behaviors H m r = (v, m) := by
  simp [_resolve_pipeline_behaviors, h]

theorem resolve_behaviors_of_cache_miss (H : Nat → Nat → Bool) (m : Mediator R) (r : RequestInst)
    (h : dictGet r.instId m.behavior_cache = none) :
    _resolve_pipeline_behaviors H m r =
      (_resolve_pipeline_behaviors_pure H m r.ty,
       { m with behavior_cache :=
          dictSet r.instId (_resolve_pipeline_behaviors_pure H m r.ty) m.behavior_cache }) := by
  simp [_resolve_pipeline_behaviors, h]

theorem resolve_behaviors_cache_after (H : Nat → Nat → Bool) (m : Mediator R) (r : RequestInst) :
    dictGet r.instId ((_resolve_pipeline_behaviors H m r).2).behavior_cache =
      some (_resolve_pipeline_behaviors H m r).1 := by
  cases h : dictGet r.instId m.behavior_cache with
  | some v => simp [resolve_behaviors_of_cache_hit H m r v h, h]
  | none => simp [resolve_behaviors_of_cache_miss H m r h, dictGet_dictSet_self]

theorem resolve_notifications_of_cache_hit (H : Nat → Nat → Bool) (m : Mediator R)
    (n : NotificationInst) (v : List NotificationHandlerDecl)
    (h : dictGet n.instId m.notification_cache = some v) :
    _resolve_notification_handlers H m n = (v, m) := by
  simp [_resolve_notification_handlers, h]

theorem resolve_notifications_of_cache_miss (H : Nat → Nat → Bool) (m : Mediator R)
    (n : NotificationInst) (h : dictGet n.instId m.notification_cache = none) :
    _resolve_notification_handlers H m n =
      (_resolve_notification_handlers_pure H m n.ty,
       { m with notification_cache :=
          dictSet n.instId (_resolve_notification_handlers_pure H m n.ty) m.notification_cache }) := by
  simp [_resolve_notification_handlers, h]

theorem resolve_notifications_cache_after (H : Nat → Nat → Bool) (m : Mediator R)
    (n : NotificationInst) :
    dictGet n.instId ((_resolve_notification_handlers H m n).2).notification_cache =
      some (_resolve_notification_handlers H m n).1 := by
  cases h : dictGet n.instId m.notification_cache with
  | some v => simp [resolve_notifications_of_cache_hit H m n v h, h]
  | none => simp [resolve_notifications_of_cache_miss H m n h, dictGet_dictSet_self]

theorem register_pipeline_behavior_ok (m : Mediator R) (b : PipelineBehaviorDecl R)
    (m' : Mediator R) (h : register_pipeline_behavior m b = Except.ok m') :
    m'.behavior_cache = m.behavior_cache ∧ m'.notification_cache = m.notification_cache ∧
      m'.request_handlers = m.request_handlers ∧
      m'.notification_handlers = m.notification_handlers := by
  cases hb : b.typeArgs with
  | nil => simp [register_pipeline_behavior, _get_request_type, hb] at h
  | cons t rest =>
    simp [register_pipeline_behavior, _get_request_type, hb] at h
    subst h
    exact ⟨rfl, rfl, rfl, rfl⟩

theorem register_notification_handler_ok (m : Mediator R) (h : NotificationHandlerDecl)
    (m' : Mediator R) (hr : register_notification_handler m h = Except.ok m') :
    m'.behavior_cache = m.behavior_cache ∧ m'.notification_cache = m.notification_cache ∧
      m'.request_handlers = m.request_handlers ∧
      m'.pipeline_behaviors = m.pipeline_behaviors := by
  cases hb : h.typeArgs with
  | nil => simp [register_notification_handler, _get_notification_type, hb] at hr
  | cons t rest =>
    simp [register_notification_handler, _get_notification_type, hb] at hr
    subst hr
    exact ⟨rfl, rfl, rfl, rfl⟩

theorem execOrder_cons_create (c : Nat) (t : List Event) :
    execOrder (Event.createRequestHandler c :: t) = execOrder t := by
  simp [execOrder]

theorem runChain_calls_one_trace (h : RequestHandlerDecl R) (r : RequestInst)
    (bs : List (PipelineBehaviorRegistration R))
    (hc : ∀ reg ∈ bs, reg.pipeline_behavior.calls = 1) :
    execOrder (runChain h r bs).1 = bs.map (fun reg => reg.position) := by
  induction bs with
  | nil => simp [runChain, execOrder]
  | cons reg rest ih =>
    have h1 : reg.pipeline_behavior.calls = 1 := hc reg (by simp)
    have ih' := ih (fun x hx => hc x (by simp [hx]))
    simp [runChain, h1, execOrder] at ih' ⊢
    exact ih'

theorem runChain_shortCircuit (h : RequestHandlerDecl R) (r : RequestInst)
    (pre : List (PipelineBehaviorRegistration R)) (reg : PipelineBehaviorRegistration R)
    (post : List (PipelineBehaviorRegistration R)) (h0 : reg.pipeline_behavior.calls = 0) :
    runChain h r (pre ++ reg :: post) = runChain h r (pre ++ [reg]) := by
  induction pre with
  | nil => simp [runChain, h0]
  | cons p pre ih => simp [runChain, ih]

theorem mem_runChain_trace (h : RequestHandlerDecl R) (r : RequestInst)
    (bs : List (PipelineBehaviorRegistration R)) (e : Event)
    (he : e ∈ (runChain h r bs).1) :
    e = Event.execRequestHandler h.classId ∨
      ∃ reg ∈ bs,
        e = Event.createPipelineBehavior reg.pipeline_behavior.classId reg.position ∨
          e = Event.execPipelineBehavior reg.pipeline_behavior.classId reg.position := by
  induction bs with
  | nil =>
    simp [runChain] at he
    exact Or.inl he
  | cons reg rest ih =>
    simp only [runChain, List.mem_cons] at he
    rcases he with he | he | he
    · exact Or.inr ⟨reg, by simp, Or.inl he⟩
    · exact Or.inr ⟨reg, by simp, Or.inr he⟩
    · rw [List.mem_flatten] at he
      obtain ⟨l, hl, hel⟩ := he
      rw [List.eq_of_mem_replicate hl] at hel
      rcases ih hel with h1 | ⟨reg', hreg', h2⟩
      · exact Or.inl h1
      · exact Or.inr ⟨reg', by simp [hreg'], h2⟩

theorem execRequestHandler_not_mem_of_shortCircuit (h : RequestHandlerDecl R) (r : RequestInst)
    (bs : List (PipelineBehaviorRegistration R)) (c : Nat)
    (hz : ∃ reg ∈ bs, reg.pipeline_behavior.calls = 0) :
    Event.execRequestHandler c ∉ (runChain h r bs).1 := by
  induction bs with
  | nil =>
    obtain ⟨reg, hmem, _⟩ := hz
    simp at hmem
  | cons reg rest ih =>
    intro hmem
    simp only [runChain, List.mem_cons] at hmem
    rcases hmem with h1 | h1 | h1
    · exact Event.noConfusion h1
    · exact Event.noConfusion h1
    · rw [List.mem_flatten] at h1
      obtain ⟨l, hl, hel⟩ := h1
      have hn : 0 < reg.pipeline_behavior.calls := by
        rcases List.mem_replicate.mp hl with ⟨hne, _⟩
        exact Nat.pos_of_ne_zero (by intro h0; exact hne (by simp [h0]))
      rw [List.eq_of_mem_replicate hl] at hel
      obtain ⟨reg', hreg', hz'⟩ := hz
      rcases List.mem_cons.mp hreg' with rfl | hreg'
      · omega
      · exact ih ⟨reg', hreg', hz'⟩ hel

theorem runChain_value_transparent_prefix (h : RequestHandlerDecl R) (r : RequestInst)
    (pre bs : List (PipelineBehaviorRegistration R))
    (hp : ∀ reg ∈ pre,
      reg.pipeline_behavior.calls = 1 ∧ ∀ v, reg.pipeline_behavior.ret [v] = v) :
    (runChain h r (pre ++ bs)).2 = (runChain h r bs).2 := by
  induction pre with
  | nil => rfl
  | cons p pre ih =>
    obtain ⟨h1, h2⟩ := hp p (by simp)
    have ih' := ih (fun x hx => hp x (by simp [hx]))
    simp [runChain, h1, h2, ih']

instance : IsTotal (PipelineBehaviorRegistration R)
    (fun a b => a.position ≤ b.position) :=
  ⟨fun a b => Nat.le_total a.position b.position⟩

instance : IsTrans (PipelineBehaviorRegistration R)
    (fun a b => a.position ≤ b.position) :=
  ⟨fun _ _ _ hab hbc => Nat.le_trans hab hbc⟩

theorem flatten_sublist_flatten {l1 l2 : List (List α)} (h : l1.Sublist l2) :
    l1.flatten.Sublist l2.flatten := by
  induction h with
  | slnil => simp
  | cons a _ ih =>
    rw [List.flatten_cons]
    exact ih.trans (List.sublist_append_right a _)
  | cons₂ a _ ih =>
    rw [List.flatten_cons, List.flatten_cons]
    exact ih.append_left a

theorem matching_sublist_stored (H : Nat → Nat → Bool) (m : Mediator R) (ty : Nat) :
    (matchingBehaviorRegistrations H m ty).Sublist (storedBehaviorRegistrations m) :=
  flatten_sublist_flatten ((m.pipeline_behaviors.filter_sublist).map _)

theorem resolved_perm_matching (H : Nat → Nat → Bool) (m : Mediator R) (ty : Nat) :
    (_resolve_pipeline_behaviors_pure H m ty).Perm (matchingBehaviorRegistrations H m ty) :=
  List.perm_insertionSort _ _

theorem resolved_positions_nodup (H : Nat → Nat → Bool) (m : Mediator R) (ty : Nat)
    (hm : PositionsOK m) :
    ((_resolve_pipeline_behaviors_pure H m ty).map (fun reg => reg.position)).Nodup := by
  have h1 : ((matchingBehaviorRegistrations H m ty).map (fun reg => reg.position)).Sublist
      ((storedBehaviorRegistrations m).map (fun reg => reg.position)) :=
    (matching_sublist_stored H m ty).map _
  have h2 := hm.1.sublist h1
  exact ((resolved_perm_matching H m ty).map _).nodup_iff.mpr h2

theorem resolved_positions_sorted_lt (H : Nat → Nat → Bool) (m : Mediator R) (ty : Nat)
    (hm : PositionsOK m) :
    ((_resolve_pipeline_behaviors_pure H m ty).map (fun reg => reg.position)).Sorted
      (· < ·) := by
  have hs : (_resolve_pipeline_behaviors_pure H m ty).Sorted
      (fun a b => a.position ≤ b.position) :=
    List.sorted_insertionSort _ _
  have hmap : ((_resolve_pipeline_behaviors_pure H m ty).map
      (fun reg => reg.position)).Sorted (· ≤ ·) := by
    rw [List.Sorted, List.pairwise_map]
    exact hs
  exact hmap.lt_of_le (resolved_positions_nodup H m ty hm)

theorem get_lt_of_sorted_lt {l : List Nat} (hs : l.Sorted (· < ·))
    {i j : Fin l.length} (hij : l.get i < l.get j) : i < j := by
  by_contra hc
  push_neg at hc
  have hle : l.get j ≤ l.get i := by
    rcases eq_or_lt_of_le hc with h | h
    · rw [h]
    · exact le_of_lt (hs.rel_get_of_lt h)
  omega

theorem count_flatten_replicate (n : Nat) (t : List Event) (e : Event) :
    ((List.replicate n t).flatten).count e = n * t.count e := by
  induction n with
  | zero => simp
  | succ k ih =>
    simp [List.replicate_succ, List.count_append, ih, Nat.succ_mul]
    omega

theorem count_createRequestHandler_runChain (h : RequestHandlerDecl R) (r : RequestInst)
    (bs : List (PipelineBehaviorRegistration R)) (c : Nat) :
    ((runChain h r bs).1).count (Event.createRequestHandler c) = 0 := by
  induction bs with
  | nil => simp [runChain]
  | cons reg rest ih =>
    simp [runChain, List.count_cons, count_flatten_replicate, ih]

theorem count_execRequestHandler_runChain (h : RequestHandlerDecl R) (r : RequestInst)
    (bs : List (PipelineBehaviorRegistration R)) :
    ((runChain h r bs).1).count (Event.execRequestHandler h.classId) =
      (bs.map (fun reg => reg.pipeline_behavior.calls)).prod := by
  induction bs with
  | nil => simp [runChain]
  | cons reg rest ih =>
    simp [runChain, List.count_cons, count_flatten_replicate, ih]

theorem count_behavior_events_of_position_not_mem (h : RequestHandlerDecl R) (r : RequestInst)
    (bs : List (PipelineBehaviorRegistration R)) (c p : Nat)
    (hp : p ∉ bs.map (fun reg => reg.position)) :
    ((runChain h r bs).1).count (Event.createPipelineBehavior c p) = 0 ∧
      ((runChain h r bs).1).count (Event.execPipelineBehavior c p) = 0 := by
  refine ⟨List.count_eq_zero.mpr fun hmem => ?_, List.count_eq_zero.mpr fun hmem => ?_⟩
  · rcases mem_runChain_trace h r bs _ hmem with h1 | ⟨reg, hreg, h2 | h2⟩
    · exact Event.noConfusion h1
    · injection h2 with _ h3
      exact hp (by rw [h3]; exact List.mem_map_of_mem _ hreg)
    · exact Event.noConfusion h2
  · rcases mem_runChain_trace h r bs _ hmem with h1 | ⟨reg, hreg, h2 | h2⟩
    · exact Event.noConfusion h1
    · exact Event.noConfusion h2
    · injection h2 with _ h3
      exact hp (by rw [h3]; exact List.mem_map_of_mem _ hreg)

theorem count_stage_create_runChain (h : RequestHandlerDecl R) (r : RequestInst)
    (l1 : List (PipelineBehaviorRegistration R)) (reg : PipelineBehaviorRegistration R)
    (l2 : List (PipelineBehaviorRegistration R))
    (hpos : reg.position ∉ (l1 ++ l2).map (fun x => x.position)) :
    ((runChain h r (l1 ++ reg :: l2)).1).count
        (Event.createPipelineBehavior reg.pipeline_behavior.classId reg.position) =
      (l1.map (fun x => x.pipeline_behavior.calls)).prod ∧
      ((runChain h r (l1 ++ reg :: l2)).1).count
        (Event.execPipelineBehavior reg.pipeline_behavior.classId reg.position) =
      (l1.map (fun x => x.pipeline_behavior.calls)).prod := by
  induction l1 with
  | nil =>
    simp only [List.nil_append, List.map_nil, List.prod_nil]
    have hsub := count_behavior_events_of_position_not_mem h r l2
      reg.pipeline_behavior.classId reg.position (by simpa using hpos)
    constructor <;>
      simp [runChain, List.count_cons, count_flatten_replicate, hsub.1, hsub.2]
  | cons b l1 ih =>
    have hb : b.position ≠ reg.position := by
      intro hbe
      exact hpos (by simp [← hbe])
    have ih' := ih (by
      intro hmem
      exact hpos (by simpa using Or.inr (by simpa using hmem)))
    constructor <;>
      simp [runChain, List.count_cons, count_flatten_replicate, ih'.1, ih'.2, Ne.symm hb]

theorem register_request_handler_ok_eq (m : Mediator R) (hdl : RequestHandlerDecl R) (T : Nat)
    (h : _get_request_type hdl.typeArgs = Except.ok T) :
    register_request_handler m hdl =
      Except.ok { m with request_handlers := dictSet T hdl m.request_handlers } := by
  simp [register_request_handler, h]

theorem runNotificationHandlers_all_ok (hs : List NotificationHandlerDecl)
    (h : ∀ x ∈ hs, x.outcome = Except.ok ()) :
    runNotificationHandlers hs =
      ((hs.map (fun x =>
        [Event.createNotificationHandler x.classId,
         Event.execNotificationHandler x.classId])).flatten,
       Except.ok ()) := by
  induction hs with
  | nil => simp [runNotificationHandlers]
  | cons x rest ih =>
    have hx := h x (by simp)
    have ih' := ih (fun y hy => h y (by simp [hy]))
    simp [runNotificationHandlers, hx, ih']

theorem runNotificationHandlers_fail_fast (pre : List NotificationHandlerDecl)
    (hd : NotificationHandlerDecl) (post : List NotificationHandlerDecl) (e : Nat)
    (hpre : ∀ x ∈ pre, x.outcome = Except.ok ()) (he : hd.outcome = Except.error e) :
    runNotificationHandlers (pre ++ hd :: post) =
      ((pre.map (fun x =>
        [Event.createNotificationHandler x.classId,
         Event.execNotificationHandler x.classId])).flatten ++
        [Event.createNotificationHandler hd.classId,
         Event.execNotificationHandler hd.classId],
       Except.error e) := by
  induction pre with
  | nil => simp [runNotificationHandlers, he]
  | cons x rest ih =>
    have hx := hpre x (by simp)
    have ih' := ih (fun y hy => hpre y (by simp [hy]))
    simp [runNotificationHandlers, hx, ih']

/-- C3: a request whose exact runtime type has no registry entry makes
`send` raise `NoRequestHandlerFoundError` carrying that very request
instance, even when some supertype of the runtime type has a registered
handler — the lookup `type(request) in self._request_handlers` consults
only the exact type, with no subtype/supertype fallback. -/
theorem c3_send_exact_type_only_no_handler_error (H : Nat → Nat → Bool) {R : Type}
    (m : Mediator R) (r : RequestInst)
    (hmiss : dictGet r.ty m.request_handlers = none)
    (tsuper : Nat) (hsuper : (dictGet tsuper m.request_handlers).isSome = true)
    (hsub : H r.ty tsuper = true) :
    (send H m r).result = Except.error (SendError.noRequestHandlerFound r) ∧
      (send H m r).trace = [] ∧ (send H m r).state = m := by
  simp [send, hmiss]

/-- C6: publishing a notification with an empty resolved handler list
returns successfully with no observable effect when the strict flag is
off, and raises `NotAnyNotificationHandlerFoundError` carrying the
notification when it is on. -/
theorem c6_publish_empty_resolution (H : Nat → Nat → Bool) {R : Type}
    (m : Mediator R) (n : NotificationInst)
    (hres : _resolve_notification_handlers_pure H m n.ty = [])
    (hcache : dictGet n.instId m.notification_cache = none) :
    (m.raise_error_if_not_any_registered_notification_handler = false →
        (publish H m n).result = Except.ok () ∧ (publish H m n).trace = []) ∧
      (m.raise_error_if_not_any_registered_notification_handler = true →
        (publish H m n).result =
          Except.error (PublishError.notAnyNotificationHandlerFound n)) := by
  constructor <;> intro hflag <;>
    simp [publish, resolve_notifications_of_cache_miss H m n hcache, hres, hflag,
      runNotificationHandlers]

/-- C7: with a non-empty resolved handler list, `publish` invokes each
matched handler exactly once, sequentially in resolved order (the trace
is exactly the per-handler instantiate-then-execute blocks in list
order); if the handler at some point raises, the handlers after it are
never invoked and its exception propagates unmodified. -/
theorem c7_publish_sequential_fail_fast (H : Nat → Nat → Bool) {R : Type}
    (m : Mediator R) (n : NotificationInst)
    (pre : List NotificationHandlerDecl) (hd : NotificationHandlerDecl)
    (post : List NotificationHandlerDecl)
    (hres : _resolve_notification_handlers_pure H m n.ty = pre ++ hd :: post)
    (hcache : dictGet n.instId m.notification_cache = none)
    (hpre : ∀ x ∈ pre, x.outcome = Except.ok ()) :
    (hd.outcome = Except.ok () → (∀ x ∈ post, x.outcome = Except.ok ()) →
        (publish H m n).result = Except.ok () ∧
          (publish H m n).trace =
            (((pre ++ hd :: post)).map (fun x =>
              [Event.createNotificationHandler x.classId,
               Event.execNotificationHandler x.classId])).flatten) ∧
      (∀ e, hd.outcome = Except.error e →
        (publish H m n).result = Except.error (PublishError.handlerError e) ∧
          (publish H m n).trace =
            (pre.map (fun x =>
              [Event.createNotificationHandler x.classId,
               Event.execNotificationHandler x.classId])).flatten ++
              [Event.createNotificationHandler hd.classId,
               Event.execNotificationHandler hd.classId]) := by
  have hne : ((pre ++ hd :: post).isEmpty ∧
      m.raise_error_if_not_any_registered_notification_handler) = False := by
    simp [List.isEmpty_iff]
  constructor
  · intro hok hpost
    have hall : ∀ x ∈ pre ++ hd :: post, x.outcome = Except.ok () := by
      intro x hx
      rcases List.mem_append.mp hx with hx | hx
      · exact hpre x hx
      · rcases List.mem_cons.mp hx with rfl | hx
        · exact hok
        · exact hpost x hx
    simp [publish, resolve_notifications_of_cache_miss H m n hcache, hres, hne,
      runNotificationHandlers_all_ok _ hall]
  · intro e he
    simp [publish, resolve_notifications_of_cache_miss H m n hcache, hres, hne,
      runNotificationHandlers_fail_fast pre hd post e hpre he]

/-- C8: registering handler `B` for a request type already registered
with handler `A` silently replaces `A` in the dict; a subsequent `send`
of a request of that exact type resolves to `B`, instantiates and
executes only `B`, and returns `B`'s result — `A` is never invoked. -/
theorem c8_second_registration_replaces_first (H : Nat → Nat → Bool) {R : Type}
    (m : Mediator R) (A B : RequestHandlerDecl R) (T : Nat)
    (hA : _get_request_type A.typeArgs = Except.ok T)
    (hB : _get_request_type B.typeArgs = Except.ok T)
    (mB : Mediator R)
    (hreg : (register_request_handler m A).bind
        (fun mA => register_request_handler mA B) = Except.ok mB)
    (r : RequestInst) (hty : r.ty = T)
    (hcache : dictGet r.instId mB.behavior_cache = none)
    (hnob : _resolve_pipeline_behaviors_pure H mB r.ty = []) :
    dictGet r.ty mB.request_handlers = some B ∧
      (send H mB r).result = Except.ok (B.handle r) ∧
      (send H mB r).trace =
        [Event.createRequestHandler B.classId, Event.execRequestHandler B.classId] ∧
      (A.classId ≠ B.classId →
        Event.createRequestHandler A.classId ∉ (send H mB r).trace ∧
          Event.execRequestHandler A.classId ∉ (send H mB r).trace) := by
  rw [register_request_handler_ok_eq m A T hA] at hreg
  rw [Except.bind] at hreg
  rw [register_request_handler_ok_eq _ B T hB] at hreg
  injection hreg with hreg
  have hget : dictGet r.ty mB.request_handlers = some B := by
    rw [← hreg, hty]
    simp [dictGet_dictSet_self]
  refine ⟨hget, ?_, ?_, ?_⟩
  · simp [send, hget, resolve_behaviors_of_cache_miss H mB r hcache, hnob, runChain]
  · simp [send, hget, resolve_behaviors_of_cache_miss H mB r hcache, hnob, runChain]
  · intro hne
    constructor <;>
      simp [send, hget, resolve_behaviors_of_cache_miss H mB r hcache, hnob, runChain, hne,
        Ne.symm hne]

theorem position_not_mem_of_nodup_middle {l1 l2 : List (PipelineBehaviorRegistration R)}
    {reg : PipelineBehaviorRegistration R}
    (h : ((l1 ++ reg :: l2).map (fun x => x.position)).Nodup) :
    reg.position ∉ (l1 ++ l2).map (fun x => x.position) := by
  rw [List.map_append, List.map_cons] at h
  have h2 := List.nodup_middle.mp h
  rw [List.map_append]
  exact (List.nodup_cons.mp h2).1

theorem position_ne_of_nodup_middle {pre post : List (PipelineBehaviorRegistration R)}
    {reg : PipelineBehaviorRegistration R}
    (h : ((pre ++ reg :: post).map (fun x => x.position)).Nodup)
    {reg' : PipelineBehaviorRegistration R} (h' : reg' ∈ post) :
    ∀ x ∈ pre ++ [reg], reg'.position ≠ x.position := by
  rw [List.map_append, List.map_cons, List.nodup_append] at h
  obtain ⟨hpre, hcons, hdisj⟩ := h
  intro x hx heq
  rcases List.mem_append.mp hx with hx | hx
  · exact hdisj (heq ▸ List.mem_map_of_mem _ hx)
      (List.mem_cons_of_mem _ (List.mem_map_of_mem _ h'))
  · have hxr : x = reg := by simpa using hx
    subst hxr
    exact (List.nodup_cons.mp hcons).1 (heq ▸ List.mem_map_of_mem _ h')

theorem send_trace_of_resolution (H : Nat → Nat → Bool) {R : Type}
    (m : Mediator R) (r : RequestInst) (h : RequestHandlerDecl R)
    (hh : dictGet r.ty m.request_handlers = some h)
    (hcache : dictGet r.instId m.behavior_cache = none) :
    (send H m r).trace =
      Event.createRequestHandler h.classId ::
        (runChain h r (_resolve_pipeline_behaviors_pure H m r.ty)).1 ∧
      (send H m r).result =
        Except.ok (runChain h r (_resolve_pipeline_behaviors_pure H m r.ty)).2 := by
  constructor <;> simp [send, hh, resolve_behaviors_of_cache_miss H m r hcache]

/-- C2 (amended): if the resolved chain is `pre ++ reg :: post` and
`reg`'s behavior never awaits its continuation, then no behavior in
`post` and no request handler ever executes its `handle`; if moreover
every behavior in `pre` awaits its continuation exactly once and
forwards the result unchanged, `send` returns exactly the value `reg`'s
`handle` produced.  (Without that transparency condition the returned
value is `reg`'s value as transformed by `pre` on the way back out.) -/
theorem c2_short_circuit_blocks_downstream (H : Nat → Nat → Bool) {R : Type}
    (m : Mediator R) (r : RequestInst) (h : RequestHandlerDecl R)
    (hh : dictGet r.ty m.request_handlers = some h)
    (hcache : dictGet r.instId m.behavior_cache = none)
    (pre post : List (PipelineBehaviorRegistration R))
    (reg : PipelineBehaviorRegistration R)
    (hres : _resolve_pipeline_behaviors_pure H m r.ty = pre ++ reg :: post)
    (h0 : reg.pipeline_behavior.calls = 0)
    (hnodup : ((pre ++ reg :: post).map (fun x => x.position)).Nodup) :
    (∀ c, Event.execRequestHandler c ∉ (send H m r).trace) ∧
      (∀ reg' ∈ post,
        Event.execPipelineBehavior reg'.pipeline_behavior.classId reg'.position ∉
          (send H m r).trace) ∧
      ((∀ x ∈ pre,
          x.pipeline_behavior.calls = 1 ∧ ∀ v, x.pipeline_behavior.ret [v] = v) →
        (send H m r).result = Except.ok (reg.pipeline_behavior.ret [])) := by
  obtain ⟨htrace, hval⟩ := send_trace_of_resolution H m r h hh hcache
  rw [hres] at htrace hval
  refine ⟨?_, ?_, ?_⟩
  · intro c hc
    rw [htrace] at hc
    rcases List.mem_cons.mp hc with h1 | h1
    · exact Event.noConfusion h1
    · exact execRequestHandler_not_mem_of_shortCircuit h r _ c
        ⟨reg, by simp, h0⟩ h1
  · intro reg' hreg' hc
    rw [htrace, runChain_shortCircuit h r pre reg post h0] at hc
    rcases List.mem_cons.mp hc with h1 | h1
    · exact Event.noConfusion h1
    · rcases mem_runChain_trace h r _ _ h1 with h2 | ⟨x, hx, h2 | h2⟩
      · exact Event.noConfusion h2
      · exact Event.noConfusion h2
      · injection h2 with _ h3
        exact position_ne_of_nodup_middle hnodup hreg' x hx h3
  · intro hpre
    rw [hval, runChain_shortCircuit h r pre reg post h0,
      runChain_value_transparent_prefix h r pre [reg] hpre]
    simp [runChain, h0]

/-- C5 (amended): a behavior that never awaits its continuation never
triggers factory instantiation or execution of any later behavior, and
the request handler's `handle` never executes; however, the request
handler *instance* is still constructed: `send` invokes the
request-handler factory exactly once, eagerly, before the chain starts,
whether or not the chain short-circuits. -/
theorem c5_lazy_construction_downstream (H : Nat → Nat → Bool) {R : Type}
    (m : Mediator R) (r : RequestInst) (h : RequestHandlerDecl R)
    (hh : dictGet r.ty m.request_handlers = some h)
    (hcache : dictGet r.instId m.behavior_cache = none)
    (pre post : List (PipelineBehaviorRegistration R))
    (reg : PipelineBehaviorRegistration R)
    (hres : _resolve_pipeline_behaviors_pure H m r.ty = pre ++ reg :: post)
    (h0 : reg.pipeline_behavior.calls = 0)
    (hnodup : ((pre ++ reg :: post).map (fun x => x.position)).Nodup) :
    (∀ reg' ∈ post,
        Event.createPipelineBehavior reg'.pipeline_behavior.classId reg'.position ∉
          (send H m r).trace ∧
        Event.execPipelineBehavior reg'.pipeline_behavior.classId reg'.position ∉
          (send H m r).trace) ∧
      (∀ c, Event.execRequestHandler c ∉ (send H m r).trace) ∧
      (send H m r).trace.count (Event.createRequestHandler h.classId) = 1 := by
  obtain ⟨htrace, _⟩ := send_trace_of_resolution H m r h hh hcache
  rw [hres] at htrace
  refine ⟨?_, ?_, ?_⟩
  · intro reg' hreg'
    constructor <;>
    · intro hc
      rw [htrace, runChain_shortCircuit h r pre reg post h0] at hc
      rcases List.mem_cons.mp hc with h1 | h1
      · exact Event.noConfusion h1
      · rcases mem_runChain_trace h r _ _ h1 with h2 | ⟨x, hx, h2 | h2⟩ <;>
          first
            | exact Event.noConfusion h2
            | (injection h2 with _ h3
               exact position_ne_of_nodup_middle hnodup hreg' x hx h3)
  · intro c hc
    rw [htrace] at hc
    rcases List.mem_cons.mp hc with h1 | h1
    · exact Event.noConfusion h1
    · exact execRequestHandler_not_mem_of_shortCircuit h r _ c ⟨reg, by simp, h0⟩ h1
  · rw [htrace]
    simp [List.count_cons, count_createRequestHandler_runChain]

/-- C10: if the behavior at some chain stage awaits its continuation
`k ≥ 2` times while every other stage awaits exactly once, the entire
downstream chain runs `k` times: each downstream behavior is freshly
instantiated through the factory `k` times and executes `k` times, the
request handler's `handle` executes `k` times, yet the request-handler
factory is invoked exactly once — all `k` runs reuse the single handler
instance `send` created before the chain started. -/
theorem c10_repeat_continuation_reruns_downstream (H : Nat → Nat → Bool) {R : Type}
    (m : Mediator R) (r : RequestInst) (h : RequestHandlerDecl R)
    (hh : dictGet r.ty m.request_handlers = some h)
    (hcache : dictGet r.instId m.behavior_cache = none)
    (pre post : List (PipelineBehaviorRegistration R))
    (reg : PipelineBehaviorRegistration R) (k : Nat)
    (hres : _resolve_pipeline_behaviors_pure H m r.ty = pre ++ reg :: post)
    (hk : reg.pipeline_behavior.calls = k) (hk2 : 2 ≤ k)
    (hpre : ∀ x ∈ pre, x.pipeline_behavior.calls = 1)
    (hpost : ∀ x ∈ post, x.pipeline_behavior.calls = 1)
    (hnodup : ((pre ++ reg :: post).map (fun x => x.position)).Nodup) :
    (∀ reg' ∈ post,
        (send H m r).trace.count
            (Event.createPipelineBehavior reg'.pipeline_behavior.classId reg'.position) = k ∧
          (send H m r).trace.count
            (Event.execPipelineBehavior reg'.pipeline_behavior.classId reg'.position) = k) ∧
      (send H m r).trace.count (Event.execRequestHandler h.classId) = k ∧
      (send H m r).trace.count (Event.createRequestHandler h.classId) = 1 := by
  obtain ⟨htrace, _⟩ := send_trace_of_resolution H m r h hh hcache
  rw [hres] at htrace
  have hprodpre : (pre.map (fun x => x.pipeline_behavior.calls)).prod = 1 :=
    List.prod_eq_one (by
      intro x hx
      obtain ⟨y, hy, rfl⟩ := List.mem_map.mp hx
      exact hpre y hy)
  refine ⟨?_, ?_, ?_⟩
  · intro reg' hreg'
    obtain ⟨post1, post2, rfl⟩ := List.append_of_mem hreg'
    have hre : pre ++ reg :: (post1 ++ reg' :: post2) =
        (pre ++ reg :: post1) ++ reg' :: post2 := by simp
    have hnodup' : (((pre ++ reg :: post1) ++ reg' :: post2).map
        (fun x => x.position)).Nodup := by
      rw [← hre]; exact hnodup
    have hpos := position_not_mem_of_nodup_middle hnodup'
    have hcount := count_stage_create_runChain h r (pre ++ reg :: post1) reg' post2 hpos
    have hprodpost1 : (post1.map (fun x => x.pipeline_behavior.calls)).prod = 1 :=
      List.prod_eq_one (by
        intro x hx
        obtain ⟨y, hy, rfl⟩ := List.mem_map.mp hx
        exact hpost y (List.mem_append_left _ hy))
    rw [← hre] at hcount
    rw [htrace]
    constructor <;>
      simp [List.count_cons, hcount.1, hcount.2, List.prod_append, hprodpre,
        hprodpost1, hk]
  · rw [htrace]
    simp [List.count_cons, count_execRequestHandler_runChain, List.prod_append,
      hprodpre, hk,
      List.prod_eq_one (fun x hx => by
        obtain ⟨y, hy, rfl⟩ := List.mem_map.mp hx
        exact hpost y hy)]
  · rw [htrace]
    simp [List.count_cons, count_createRequestHandler_runChain]

/-- C1: when every matching behavior awaits its continuation exactly
once, `send` executes the matching behaviors in ascending order of their
global registration position: the sequence of behavior-execution events
is a permutation of all matching registrations' positions (every match
runs exactly once), it is strictly ascending, and a stage with a smaller
position therefore always starts before one with a larger position —
regardless of whether each was registered against the supertype or the
subtype key.  `PositionsOK` is the invariant `register_pipeline_behavior`
maintains by stamping every registration with a fresh value of the one
global counter. -/
theorem c1_behaviors_execute_in_ascending_global_position (H : Nat → Nat → Bool) {R : Type}
    (m : Mediator R) (r : RequestInst) (hm : PositionsOK m)
    (h : RequestHandlerDecl R) (hh : dictGet r.ty m.request_handlers = some h)
    (hcache : dictGet r.instId m.behavior_cache = none)
    (hcalls : ∀ reg ∈ _resolve_pipeline_behaviors_pure H m r.ty,
      reg.pipeline_behavior.calls = 1) :
    (execOrder (send H m r).trace).Perm
        ((matchingBehaviorRegistrations H m r.ty).map (fun reg => reg.position)) ∧
      (execOrder (send H m r).trace).Sorted (· < ·) ∧
      ∀ (i j : Fin (execOrder (send H m r).trace).length),
        (execOrder (send H m r).trace).get i < (execOrder (send H m r).trace).get j →
          i < j := by
  obtain ⟨htrace, _⟩ := send_trace_of_resolution H m r h hh hcache
  have hexec : execOrder (send H m r).trace =
      (_resolve_pipeline_behaviors_pure H m r.ty).map (fun reg => reg.position) := by
    rw [htrace, execOrder_cons_create, runChain_calls_one_trace h r _ hcalls]
  have hsorted : (execOrder (send H m r).trace).Sorted (· < ·) := by
    rw [hexec]
    exact resolved_positions_sorted_lt H m r.ty hm
  exact ⟨by rw [hexec]; exact (resolved_perm_matching H m r.ty).map _, hsorted,
    fun i j hij => get_lt_of_sorted_lt hsorted hij⟩

/-- C4 (amended): the resolved behavior and notification-handler lists
are cached per dispatched *instance* (keyed by the message argument of
the cached resolver, which hashes by object identity), not per exact
runtime type: re-resolving the same instance after a further
registration still returns the originally cached list, while a fresh
instance — even of the same runtime type — is resolved anew from the
current registries. -/
theorem c4_resolution_cached_per_instance (H : Nat → Nat → Bool) {R : Type}
    (m : Mediator R) (r : RequestInst) (b : PipelineBehaviorDecl R) (m2 : Mediator R)
    (hreg : register_pipeline_behavior (_resolve_pipeline_behaviors H m r).2 b =
      Except.ok m2)
    (r2 : RequestInst) (hfresh : dictGet r2.instId m2.behavior_cache = none)
    (mN : Mediator R) (n : NotificationInst) (nh : NotificationHandlerDecl) (m3 : Mediator R)
    (hnreg : register_notification_handler (_resolve_notification_handlers H mN n).2 nh =
      Except.ok m3) :
    (_resolve_pipeline_behaviors H m2 r).1 = (_resolve_pipeline_behaviors H m r).1 ∧
      (_resolve_pipeline_behaviors H m2 r2).1 =
        _resolve_pipeline_behaviors_pure H m2 r2.ty ∧
      (_resolve_notification_handlers H m3 n).1 =
        (_resolve_notification_handlers H mN n).1 := by
  refine ⟨?_, ?_, ?_⟩
  · have hc := (register_pipeline_behavior_ok _ b m2 hreg).1
    have hhit : dictGet r.instId m2.behavior_cache =
        some (_resolve_pipeline_behaviors H m r).1 := by
      rw [hc]
      exact resolve_behaviors_cache_after H m r
    rw [resolve_behaviors_of_cache_hit H m2 r _ hhit]
  · rw [resolve_behaviors_of_cache_miss H m2 r2 hfresh]
  · have hc := (register_notification_handler_ok _ nh m3 hnreg).2.1
    have hhit : dictGet n.instId m3.notification_cache =
        some (_resolve_notification_handlers H mN n).1 := by
      rw [hc]
      exact resolve_notifications_cache_after H mN n
    rw [resolve_notifications_of_cache_hit H m3 n _ hhit]

/-- C9 (amended): when a handler's or behavior's associated message type
cannot be introspected (its `__orig_bases__[0]` has an empty generic
argument tuple), registration does fail at registration time — but with
the bare builtin `IndexError` that `get_args(...)[0]` raises, not with a
dedicated descriptive `HandlerSignatureError`: the library defines no
such error type (`IntrospectionError` exhaustively models what the
registration path can raise). -/
theorem c9_introspection_failure_raises_bare_index_error {R : Type} (m : Mediator R)
    (h : RequestHandlerDecl R) (b : PipelineBehaviorDecl R) (nh : NotificationHandlerDecl)
    (hh : h.typeArgs = []) (hb : b.typeArgs = []) (hn : nh.typeArgs = []) :
    register_request_handler m h = Except.error IntrospectionError.indexError ∧
      register_pipeline_behavior m b = Except.error IntrospectionError.indexError ∧
      register_notification_handler m nh = Except.error IntrospectionError.indexError := by
  refine ⟨?_, ?_, ?_⟩ <;>
    simp [register_request_handler, register_pipeline_behavior,
      register_notification_handler, _get_request_type, _get_notification_type, hh, hb, hn]

namespace Fx

/-- Hierarchy with unrelated classes: `issubclass` holds only reflexively. -/
def idH : Nat → Nat → Bool := fun a b => a == b

/-- Hierarchy where type `0` is a subclass of type `1`. -/
def subH : Nat → Nat → Bool := fun a b => a == b || (a == 0 && b == 1)

/-- A handler class for request type `0` returning `40`. -/
def handler : RequestHandlerDecl Nat := ⟨100, [0, 90], fun _ => 40⟩

/-- A handler class for request type `1` (the supertype) returning `41`. -/
def handlerSuper : RequestHandlerDecl Nat := ⟨101, [1, 90], fun _ => 41⟩

/-- A transparent behavior declared for type `0`: awaits its continuation
once and forwards the result unchanged. -/
def forward0 : PipelineBehaviorDecl Nat := ⟨1, [0, 90], 1, fun rs => rs.headD 0⟩

/-- A transparent behavior declared for the supertype `1`. -/
def forward1 : PipelineBehaviorDecl Nat := ⟨2, [1, 90], 1, fun rs => rs.headD 0⟩

/-- Another transparent behavior declared for the supertype `1`. -/
def forward2 : PipelineBehaviorDecl Nat := ⟨3, [1, 90], 1, fun rs => rs.headD 0⟩

/-- A behavior that awaits its continuation once and returns the result
plus one. -/
def plusOne : PipelineBehaviorDecl Nat := ⟨4, [0, 90], 1, fun rs => rs.headD 0 + 1⟩

/-- A short-circuiting behavior: never awaits its continuation and
returns `9` itself. -/
def stop9 : PipelineBehaviorDecl Nat := ⟨5, [0, 90], 0, fun _ => 9⟩

/-- A behavior that awaits its continuation twice and forwards the first
result. -/
def twice : PipelineBehaviorDecl Nat := ⟨6, [0, 90], 2, fun rs => rs.headD 0⟩

/-- Builds a mediator by registering one request handler and then a list
of pipeline behaviors through the public registration API. -/
def buildMediator (h : RequestHandlerDecl Nat) (bs : List (PipelineBehaviorDecl Nat)) :
    Mediator Nat :=
  ((do
    let m ← register_request_handler {} h
    bs.foldlM (fun m b => register_pipeline_behavior m b) m).toOption).getD {}

def nOk1 : NotificationHandlerDecl := ⟨11, [5, 90], Except.ok ()⟩

def nOk2 : NotificationHandlerDecl := ⟨12, [5, 90], Except.ok ()⟩

def nBoom : NotificationHandlerDecl := ⟨13, [5, 90], Except.error 42⟩

/-- Builds a mediator by registering a list of notification handlers
through the public registration API. -/
def buildNotifMediator (hs : List NotificationHandlerDecl) : Mediator Nat :=
  ((hs.foldlM (fun m h => register_notification_handler m h) ({} : Mediator Nat)).toOption).getD {}

/-- Supertype-registered handler only: exercises the no-fallback lookup. -/
def c3m : Mediator Nat := buildMediator handlerSuper []

/-- Behaviors registered super (pos 0), sub (pos 1), super (pos 2):
dict iteration alone would yield positions `[0, 2, 1]`. -/
def c1m : Mediator Nat := buildMediator handler [forward1, forward0, forward2]

/-- Chain `plusOne` (pos 0) then `stop9` (pos 1): the short-circuit value
is transformed on the way back out. -/
def cxm : Mediator Nat := buildMediator handler [plusOne, stop9]

/-- Chain with just the short-circuiting behavior. -/
def c5m : Mediator Nat := buildMediator handler [stop9]

/-- Chain `forward0` (pos 0), `stop9` (pos 1), `forward0` again (pos 2). -/
def scm : Mediator Nat := buildMediator handler [forward0, stop9, forward0]

/-- Chain `twice` (pos 0) then `forward0` (pos 1). -/
def c10m : Mediator Nat := buildMediator handler [twice, forward0]

def c7mOk : Mediator Nat := buildNotifMediator [nOk1, nOk2]

def c7mFail : Mediator Nat := buildNotifMediator [nOk1, nBoom, nOk2]

/-- Strict-mode mediator with an empty notification registry. -/
def strictm : Mediator Nat :=
  { raise_error_if_not_any_registered_notification_handler := true }

/-- One behavior registered, then instance `⟨0, 0⟩` dispatched (filling
the per-instance cache), then a second behavior registered. -/
def c4m0 : Mediator Nat := buildMediator handler [forward0]

def c4s1 : SendResult Nat := send idH c4m0 ⟨0, 0⟩

def c4m1 : Mediator Nat := ((register_pipeline_behavior c4s1.state forward0).toOption).getD {}

def c4m2 : Mediator Nat :=
  ((register_pipeline_behavior (_resolve_pipeline_behaviors idH c4m0 ⟨0, 0⟩).2
    forward0).toOption).getD {}

def c4n0 : Mediator Nat := buildNotifMediator [nOk1]

def c4m3 : Mediator Nat :=
  ((register_notification_handler (_resolve_notification_handlers idH c4n0 ⟨0, 5⟩).2
    nOk2).toOption).getD {}

/-- A handler class whose `__orig_bases__[0]` has no generic arguments. -/
def badHandler : RequestHandlerDecl Nat := ⟨200, [], fun _ => 0⟩

def badBehavior : PipelineBehaviorDecl Nat := ⟨201, [], 1, fun rs => rs.headD 0⟩

def badNotifHandler : NotificationHandlerDecl := ⟨202, [], Except.ok ()⟩

/-- Second handler class for request type `0`, returning `77`. -/
def replacedB : RequestHandlerDecl Nat := ⟨102, [0, 90], fun _ => 77⟩

/-- Handler `handler` registered first, then `replacedB` for the same
request type. -/
def c8m : Mediator Nat :=
  (((register_request_handler {} handler).bind
    (fun mA => register_request_handler mA replacedB)).toOption).getD {}

end Fx

/-- C1 witness: with a behavior registered for the supertype (position
0), one for the subtype (position 1) and another for the supertype
(position 2), a subtype request executes them at positions 0, 1, 2 even
though registry iteration alone would yield 0, 2, 1. -/
theorem c1_witness :
    (execOrder (send Fx.subH Fx.c1m ⟨0, 0⟩).trace).Perm
        ((matchingBehaviorRegistrations Fx.subH Fx.c1m (⟨0, 0⟩ : RequestInst).ty).map
          (fun reg => reg.position)) ∧
      (execOrder (send Fx.subH Fx.c1m ⟨0, 0⟩).trace).Sorted (· < ·) ∧
      ∀ (i j : Fin (execOrder (send Fx.subH Fx.c1m ⟨0, 0⟩).trace).length),
        (execOrder (send Fx.subH Fx.c1m ⟨0, 0⟩).trace).get i <
            (execOrder (send Fx.subH Fx.c1m ⟨0, 0⟩).trace).get j → i < j :=
  c1_behaviors_execute_in_ascending_global_position Fx.subH Fx.c1m ⟨0, 0⟩ (by decide)
    Fx.handler rfl rfl (by decide)

/-- C2 (counterexample): in the chain `plusOne` (index 0, transforms the
result) then `stop9` (index 1, never awaits its continuation), `stop9`
executes, its `handle` returns `9`, yet `send` returns `10` — not the
value returned by the short-circuiting behavior's `handle`, contradicting
the claim's assertion about an arbitrary short-circuiting index. -/
theorem c2_counterexample :
    Fx.stop9.calls = 0 ∧
      Event.execPipelineBehavior Fx.stop9.classId 1 ∈ (send Fx.idH Fx.cxm ⟨0, 0⟩).trace ∧
      Fx.stop9.ret [] = 9 ∧
      (send Fx.idH Fx.cxm ⟨0, 0⟩).result = Except.ok 10 ∧
      (send Fx.idH Fx.cxm ⟨0, 0⟩).result ≠ Except.ok (Fx.stop9.ret []) :=
  ⟨rfl, by decide, rfl, rfl, by decide⟩

/-- C2 witness: chain `forward0` (transparent), `stop9`, `forward0`; the
handler and the post-`stop9` stage never execute and `send` returns
`stop9`'s value through the transparent prefix. -/
theorem c2_witness :
    (∀ c, Event.execRequestHandler c ∉ (send Fx.idH Fx.scm ⟨0, 0⟩).trace) ∧
      (∀ reg' ∈ [(⟨Fx.forward0, 2⟩ : PipelineBehaviorRegistration Nat)],
        Event.execPipelineBehavior reg'.pipeline_behavior.classId reg'.position ∉
          (send Fx.idH Fx.scm ⟨0, 0⟩).trace) ∧
      ((∀ x ∈ [(⟨Fx.forward0, 0⟩ : PipelineBehaviorRegistration Nat)],
          x.pipeline_behavior.calls = 1 ∧ ∀ v, x.pipeline_behavior.ret [v] = v) →
        (send Fx.idH Fx.scm ⟨0, 0⟩).result = Except.ok (Fx.stop9.ret [])) :=
  c2_short_circuit_blocks_downstream Fx.idH Fx.scm ⟨0, 0⟩ Fx.handler rfl rfl
    [⟨Fx.forward0, 0⟩] [⟨Fx.forward0, 2⟩] ⟨Fx.stop9, 1⟩ rfl rfl (by decide)

/-- C3 witness: a handler is registered for supertype `1` only; sending
a request of subtype `0` raises `NoRequestHandlerFoundError` carrying
the request, with no events and no state change. -/
theorem c3_witness :
    (send Fx.subH Fx.c3m ⟨0, 0⟩).result =
        Except.error (SendError.noRequestHandlerFound ⟨0, 0⟩) ∧
      (send Fx.subH Fx.c3m ⟨0, 0⟩).trace = [] ∧
      (send Fx.subH Fx.c3m ⟨0, 0⟩).state = Fx.c3m :=
  c3_send_exact_type_only_no_handler_error Fx.subH Fx.c3m ⟨0, 0⟩ rfl 1 rfl rfl

/-- C4 (counterexample): instance `⟨0, 0⟩` of type `0` is dispatched,
then a second behavior is registered; resolving the *same* instance
still yields the stale one-element list while the *different* instance
`⟨1, 0⟩` of the same type `0` yields the two-element list — so the cache
is not per exact runtime type. -/
theorem c4_counterexample :
    (⟨0, 0⟩ : RequestInst).ty = (⟨1, 0⟩ : RequestInst).ty ∧
      (_resolve_pipeline_behaviors Fx.idH Fx.c4m1 ⟨0, 0⟩).1.map
          (fun reg => reg.position) = [0] ∧
      (_resolve_pipeline_behaviors Fx.idH Fx.c4m1 ⟨1, 0⟩).1.map
          (fun reg => reg.position) = [0, 1] ∧
      (_resolve_pipeline_behaviors Fx.idH Fx.c4m1 ⟨1, 0⟩).1 ≠
        (_resolve_pipeline_behaviors Fx.idH Fx.c4m1 ⟨0, 0⟩).1 :=
  ⟨rfl, rfl, rfl, fun h =>
    absurd (congrArg (List.map (fun reg => reg.position)) h) (by decide)⟩

/-- C4 witness: the amended per-instance caching at concrete states. -/
theorem c4_witness :
    (_resolve_pipeline_behaviors Fx.idH Fx.c4m2 ⟨0, 0⟩).1 =
        (_resolve_pipeline_behaviors Fx.idH Fx.c4m0 ⟨0, 0⟩).1 ∧
      (_resolve_pipeline_behaviors Fx.idH Fx.c4m2 ⟨1, 0⟩).1 =
        _resolve_pipeline_behaviors_pure Fx.idH Fx.c4m2 (⟨1, 0⟩ : RequestInst).ty ∧
      (_resolve_notification_handlers Fx.idH Fx.c4m3 ⟨0, 5⟩).1 =
        (_resolve_notification_handlers Fx.idH Fx.c4n0 ⟨0, 5⟩).1 :=
  c4_resolution_cached_per_instance Fx.idH Fx.c4m0 ⟨0, 0⟩ Fx.forward0 Fx.c4m2 rfl
    ⟨1, 0⟩ rfl Fx.c4n0 ⟨0, 5⟩ Fx.nOk2 Fx.c4m3 rfl

/-- C5 (counterexample): with a single short-circuiting behavior, the
`send` trace still contains the request-handler factory instantiation —
the terminal handler's construction is not avoided by the short-circuit,
contradicting the claim's "including factory instantiation … the
terminal request handler included". -/
theorem c5_counterexample :
    Fx.stop9.calls = 0 ∧
      _resolve_pipeline_behaviors_pure Fx.idH Fx.c5m 0 = [⟨Fx.stop9, 0⟩] ∧
      Event.createRequestHandler Fx.handler.classId ∈ (send Fx.idH Fx.c5m ⟨0, 0⟩).trace :=
  ⟨rfl, rfl, by decide⟩

/-- C5 witness: the amended laziness at a concrete chain — downstream
stages are neither constructed nor executed, the handler never executes,
but the handler factory ran exactly once. -/
theorem c5_witness :
    (∀ reg' ∈ [(⟨Fx.forward0, 2⟩ : PipelineBehaviorRegistration Nat)],
        Event.createPipelineBehavior reg'.pipeline_behavior.classId reg'.position ∉
          (send Fx.idH Fx.scm ⟨0, 0⟩).trace ∧
        Event.execPipelineBehavior reg'.pipeline_behavior.classId reg'.position ∉
          (send Fx.idH Fx.scm ⟨0, 0⟩).trace) ∧
      (∀ c, Event.execRequestHandler c ∉ (send Fx.idH Fx.scm ⟨0, 0⟩).trace) ∧
      (send Fx.idH Fx.scm ⟨0, 0⟩).trace.count
        (Event.createRequestHandler Fx.handler.classId) = 1 :=
  c5_lazy_construction_downstream Fx.idH Fx.scm ⟨0, 0⟩ Fx.handler rfl rfl
    [⟨Fx.forward0, 0⟩] [⟨Fx.forward0, 2⟩] ⟨Fx.stop9, 1⟩ rfl rfl (by decide)

/-- C6 witness: both flag settings at an empty notification registry. -/
theorem c6_witness :
    ((({} : Mediator Nat).raise_error_if_not_any_registered_notification_handler = false →
        (publish Fx.idH ({} : Mediator Nat) ⟨0, 5⟩).result = Except.ok () ∧
          (publish Fx.idH ({} : Mediator Nat) ⟨0, 5⟩).trace = []) ∧
      (({} : Mediator Nat).raise_error_if_not_any_registered_notification_handler = true →
        (publish Fx.idH ({} : Mediator Nat) ⟨0, 5⟩).result =
          Except.error (PublishError.notAnyNotificationHandlerFound ⟨0, 5⟩))) ∧
      ((Fx.strictm.raise_error_if_not_any_registered_notification_handler = false →
        (publish Fx.idH Fx.strictm ⟨0, 5⟩).result = Except.ok () ∧
          (publish Fx.idH Fx.strictm ⟨0, 5⟩).trace = []) ∧
      (Fx.strictm.raise_error_if_not_any_registered_notification_handler = true →
        (publish Fx.idH Fx.strictm ⟨0, 5⟩).result =
          Except.error (PublishError.notAnyNotificationHandlerFound ⟨0, 5⟩))) :=
  ⟨c6_publish_empty_resolution Fx.idH {} ⟨0, 5⟩ rfl rfl,
   c6_publish_empty_resolution Fx.idH Fx.strictm ⟨0, 5⟩ rfl rfl⟩

/-- C7 witness: an all-success fan-out produces the full per-handler
trace in order; a failing middle handler stops the loop and its error
propagates. -/
theorem c7_witness :
    ((Fx.nOk1.outcome = Except.ok () → (∀ x ∈ [Fx.nOk2], x.outcome = Except.ok ()) →
        (publish Fx.idH Fx.c7mOk ⟨0, 5⟩).result = Except.ok () ∧
          (publish Fx.idH Fx.c7mOk ⟨0, 5⟩).trace =
            ((([] : List NotificationHandlerDecl) ++ Fx.nOk1 :: [Fx.nOk2]).map (fun x =>
              [Event.createNotificationHandler x.classId,
               Event.execNotificationHandler x.classId])).flatten) ∧
      (∀ e, Fx.nOk1.outcome = Except.error e →
        (publish Fx.idH Fx.c7mOk ⟨0, 5⟩).result =
            Except.error (PublishError.handlerError e) ∧
          (publish Fx.idH Fx.c7mOk ⟨0, 5⟩).trace =
            (([] : List NotificationHandlerDecl).map (fun x =>
              [Event.createNotificationHandler x.classId,
               Event.execNotificationHandler x.classId])).flatten ++
              [Event.createNotificationHandler Fx.nOk1.classId,
               Event.execNotificationHandler Fx.nOk1.classId])) ∧
      ((Fx.nBoom.outcome = Except.ok () → (∀ x ∈ [Fx.nOk2], x.outcome = Except.ok ()) →
        (publish Fx.idH Fx.c7mFail ⟨1, 5⟩).result = Except.ok () ∧
          (publish Fx.idH Fx.c7mFail ⟨1, 5⟩).trace =
            (([Fx.nOk1] ++ Fx.nBoom :: [Fx.nOk2]).map (fun x =>
              [Event.createNotificationHandler x.classId,
               Event.execNotificationHandler x.classId])).flatten) ∧
      (∀ e, Fx.nBoom.outcome = Except.error e →
        (publish Fx.idH Fx.c7mFail ⟨1, 5⟩).result =
            Except.error (PublishError.handlerError e) ∧
          (publish Fx.idH Fx.c7mFail ⟨1, 5⟩).trace =
            ([Fx.nOk1].map (fun x =>
              [Event.createNotificationHandler x.classId,
               Event.execNotificationHandler x.classId])).flatten ++
              [Event.createNotificationHandler Fx.nBoom.classId,
               Event.execNotificationHandler Fx.nBoom.classId])) :=
  ⟨c7_publish_sequential_fail_fast Fx.idH Fx.c7mOk ⟨0, 5⟩ [] Fx.nOk1 [Fx.nOk2]
      rfl rfl (by simp),
   c7_publish_sequential_fail_fast Fx.idH Fx.c7mFail ⟨1, 5⟩ [Fx.nOk1] Fx.nBoom [Fx.nOk2]
      rfl rfl (by decide)⟩

/-- C8 witness: `handler` then `replacedB` registered for request type
`0`; `send` uses only `replacedB`. -/
theorem c8_witness :
    dictGet (⟨0, 0⟩ : RequestInst).ty Fx.c8m.request_handlers = some Fx.replacedB ∧
      (send Fx.idH Fx.c8m ⟨0, 0⟩).result = Except.ok (Fx.replacedB.handle ⟨0, 0⟩) ∧
      (send Fx.idH Fx.c8m ⟨0, 0⟩).trace =
        [Event.createRequestHandler Fx.replacedB.classId,
         Event.execRequestHandler Fx.replacedB.classId] ∧
      (Fx.handler.classId ≠ Fx.replacedB.classId →
        Event.createRequestHandler Fx.handler.classId ∉
            (send Fx.idH Fx.c8m ⟨0, 0⟩).trace ∧
          Event.execRequestHandler Fx.handler.classId ∉
            (send Fx.idH Fx.c8m ⟨0, 0⟩).trace) :=
  c8_second_registration_replaces_first Fx.idH {} Fx.handler Fx.replacedB 0 rfl rfl
    Fx.c8m rfl ⟨0, 0⟩ rfl rfl rfl

/-- C9 (counterexample): registering a handler class with no
introspectable generic arguments fails with the bare builtin
`IndexError`, not a dedicated descriptive signature error — no such error
type exists in the library. -/
theorem c9_counterexample :
    register_request_handler ({} : Mediator Nat) Fx.badHandler =
      Except.error IntrospectionError.indexError := rfl

/-- C9 witness: all three registration paths at concrete declarations. -/
theorem c9_witness :
    register_request_handler ({} : Mediator Nat) Fx.badHandler =
        Except.error IntrospectionError.indexError ∧
      register_pipeline_behavior ({} : Mediator Nat) Fx.badBehavior =
        Except.error IntrospectionError.indexError ∧
      register_notification_handler ({} : Mediator Nat) Fx.badNotifHandler =
        Except.error IntrospectionError.indexError :=
  c9_introspection_failure_raises_bare_index_error ({} : Mediator Nat)
    Fx.badHandler Fx.badBehavior Fx.badNotifHandler rfl rfl rfl

/-- C10 witness: `twice` (2 continuation awaits) then `forward0`; the
downstream behavior is constructed and executed twice, the handler
executes twice, the handler factory ran once. -/
theorem c10_witness :
    (∀ reg' ∈ [(⟨Fx.forward0, 1⟩ : PipelineBehaviorRegistration Nat)],
        (send Fx.idH Fx.c10m ⟨0, 0⟩).trace.count
            (Event.createPipelineBehavior reg'.pipeline_behavior.classId
              reg'.position) = 2 ∧
          (send Fx.idH Fx.c10m ⟨0, 0⟩).trace.count
            (Event.execPipelineBehavior reg'.pipeline_behavior.classId
              reg'.position) = 2) ∧
      (send Fx.idH Fx.c10m ⟨0, 0⟩).trace.count
          (Event.execRequestHandler Fx.handler.classId) = 2 ∧
        (send Fx.idH Fx.c10m ⟨0, 0⟩).trace.count
          (Event.createRequestHandler Fx.handler.classId) = 1 :=
  c10_repeat_continuation_reruns_downstream Fx.idH Fx.c10m ⟨0, 0⟩ Fx.handler rfl rfl
    [] [⟨Fx.forward0, 1⟩] ⟨Fx.twice, 0⟩ 2 rfl rfl (by decide) (by simp) (by decide)
    (by decide)

end Mediatpy
